import Mathlib

/-!
Verification development for the bore-go tunnel client.

The Go sources are shallowly embedded: bytes are natural numbers below 256,
byte strings are lists of naturals, machine words are naturals reduced
modulo two to the thirty-second power where overflow matters, and the
outcomes of socket operations (dial, deadline setting, writes, reads) are
passed in explicitly as parameters or as small outcome inductives, so that
every definition is an executable function of its inputs.
-/

namespace BoreGo

/-- TCP port used by the bore control channel (protocol.go). -/
def ControlPort : Nat := 7835

/-- Maximum length of a JSON frame, excluding the trailing null byte
(protocol.go). -/
def MaxFrameLength : Nat := 256

/-- Errors that the framing layer's send path can produce. Each constructor
mirrors one early return of Delimited.SendJSON in protocol.go. -/
inductive SendErr where
  | marshalErr
  | frameTooLarge (n : Nat)
  | deadlineErr
  | writeErr
  | flushErr
  deriving DecidableEq, Repr

/-- Embedding of Delimited.SendJSON (protocol.go). The value to send is
represented by its marshalled payload bytes together with a flag saying
whether marshalling succeeded; the deadline call, the buffered writes and
the flush are represented by success flags. The second component of the
result is the byte sequence handed to the transport: the payload followed
by a single zero byte on success, and nothing when an error is returned
before the flush (the buffered writer only reaches the socket at flush
time, since a payload is at most 256 bytes and never fills the buffer). -/
def SendJSON (marshalOk : Bool) (payload : List Nat)
    (deadlineOk writeOk flushOk : Bool) : Except SendErr Unit × List Nat :=
  if marshalOk = false then (.error .marshalErr, [])
  else if MaxFrameLength < payload.length then
    (.error (.frameTooLarge payload.length), [])
  else if deadlineOk = false then (.error .deadlineErr, [])
  else if writeOk = false then (.error .writeErr, [])
  else if flushOk = false then (.error .flushErr, [])
  else (.ok (), payload ++ [0])

/-- Errors that the framing layer's receive path can produce, one per early
return of Delimited.RecvFrame in protocol.go. -/
inductive RecvErr where
  | deadlineErr
  | timedOut
  | ioErr
  | emptyFrame
  | frameTooLarge (n : Nat)
  deriving DecidableEq, Repr

/-- Result of the underlying bufio ReadBytes(0) call. On success the raw
bytes include the zero delimiter (that is how bufio.Reader.ReadBytes
behaves); on end of file the bytes read before the stream ended are
carried (without any delimiter); a read deadline expiry and any other
transport error are the remaining cases. -/
inductive ReadResult where
  | ok (raw : List Nat)
  | eofBytes (pending : List Nat)
  | timeout
  | otherErr
  deriving DecidableEq, Repr

/-- Embedding of bytes.TrimSuffix(frame, single zero byte): removes one
trailing zero byte when present. -/
def trimSuffixZero (l : List Nat) : List Nat :=
  match l.reverse with
  | 0 :: rest => rest.reverse
  | _ => l

/-- Embedding of Delimited.RecvFrame (protocol.go). The applyTimeout flag
selects between setting and clearing the read deadline; deadlineOk is the
outcome of that call; r is the outcome of the ReadBytes call. Success
carries some payload, and none encodes the present-equals-false clean
end-of-stream result. -/
def RecvFrame (applyTimeout : Bool) (deadlineOk : Bool) (r : ReadResult) :
    Except RecvErr (Option (List Nat)) :=
  if deadlineOk = false then .error .deadlineErr
  else
    match r with
    | .eofBytes _ => .ok none
    | .timeout => .error .timedOut
    | .otherErr => .error .ioErr
    | .ok raw =>
      if raw.length = 0 then .error .emptyFrame
      else
        let frame := trimSuffixZero raw
        if MaxFrameLength < frame.length then
          .error (.frameTooLarge frame.length)
        else .ok (some frame)

/-- Enumerated server message kinds (protocol.go); Go represents the kind
as a string type, so the embedding keeps plain strings. -/
def ServerHello : String := "hello"

def ServerChallenge : String := "challenge"

def ServerHeartbeat : String := "heartbeat"

def ServerConnection : String := "connection"

def ServerError : String := "error"

/-- A parsed message sent from the bore server (protocol.go). Fields not
used by a given kind keep their zero values, as in the Go struct. -/
structure ServerMessage where
  kind : String
  port : Nat := 0
  id : List Nat := []
  errorText : String := ""
  deriving DecidableEq, Repr

/-- Abstract syntax of a JSON document, as far as the decoder needs to
distinguish inputs: a string, a number (with a flag recording whether its
literal syntax is an integer), an object, an array, a boolean, null, and
a token standing for input that is not syntactically valid JSON. -/
inductive Json where
  | str (s : String)
  | num (i : Int) (intSyntax : Bool)
  | obj (fields : List (String × Json))
  | arr (elems : List Json)
  | jbool (b : Bool)
  | null
  | invalid

/-- Behaviour of Go json.Unmarshal into a string variable: succeeds for a
bare JSON string, and for JSON null it is a documented no-op that leaves
the zero value (the empty string) and reports no error. -/
def unmarshalGoString : Json → Option String
  | .str s => some s
  | .null => some ""
  | _ => none

/-- One step of building a Go map from JSON object fields: a later
duplicate key overwrites the earlier value, as encoding/json does. -/
def upsertField (m : List (String × Json)) (kv : String × Json) :
    List (String × Json) :=
  if m.any (fun p => p.1 = kv.1) then
    m.map (fun p => if p.1 = kv.1 then kv else p)
  else m ++ [kv]

/-- The Go map produced by unmarshalling a JSON object: fields folded
left to right with last-wins duplicate handling, so its length is the
number of distinct keys. -/
def goObjectMap (fields : List (String × Json)) : List (String × Json) :=
  fields.foldl upsertField []

/-- Behaviour of Go json.Unmarshal into a map variable: succeeds for a
JSON object; JSON null is a no-op leaving the nil (empty) map. -/
def unmarshalGoMap : Json → Option (List (String × Json)) :=
  fun j =>
    match j with
    | .obj fields => some (goObjectMap fields)
    | .null => some []
    | _ => none

/-- Behaviour of Go json.Unmarshal into a uint16 variable: succeeds for a
number written with integer syntax that fits in sixteen bits; JSON null
is a no-op leaving zero. -/
def unmarshalGoUint16 : Json → Option Nat
  | .num i intSyntax =>
      if intSyntax ∧ 0 ≤ i ∧ i ≤ 65535 then some i.toNat else none
  | .null => some 0
  | _ => none

/-- Decoding errors of decodeServerMessage (protocol.go); each constructor
mirrors one early return. -/
inductive DecodeErr where
  | unexpectedUnit (s : String)
  | invalidMessage
  | expectedSingleField (n : Nat)
  | invalidHello
  | invalidChallenge
  | invalidChallengeUuid
  | invalidConnection
  | invalidConnectionUuid
  | invalidError
  | unknownKind (k : String)
  deriving DecidableEq, Repr

/-- Dispatch on the single key of the object form of a server message,
embedding the switch statement inside decodeServerMessage (protocol.go).
The uuid.Parse function of the external uuid package is passed in as a
parameter returning the sixteen raw bytes on success. -/
def decodeSingleField (uuidParse : String → Option (List Nat)) (k : String)
    (v : Json) : Except DecodeErr ServerMessage :=
  if k = "Hello" then
    match unmarshalGoUint16 v with
    | some port => .ok { kind := ServerHello, port := port }
    | none => .error .invalidHello
  else if k = "Challenge" then
    match unmarshalGoString v with
    | some raw =>
      match uuidParse raw with
      | some i => .ok { kind := ServerChallenge, id := i }
      | none => .error .invalidChallengeUuid
    | none => .error .invalidChallenge
  else if k = "Connection" then
    match unmarshalGoString v with
    | some raw =>
      match uuidParse raw with
      | some i => .ok { kind := ServerConnection, id := i }
      | none => .error .invalidConnectionUuid
    | none => .error .invalidConnection
  else if k = "Error" then
    match unmarshalGoString v with
    | some msg => .ok { kind := ServerError, errorText := msg }
    | none => .error .invalidError
  else .error (.unknownKind k)

/-- Embedding of decodeServerMessage (protocol.go): first attempt to
unmarshal the input as a bare string; only the exact string Heartbeat is
accepted there. Otherwise unmarshal as a map and require exactly one
key, dispatching on it. -/
def decodeServerMessage (uuidParse : String → Option (List Nat))
    (data : Json) : Except DecodeErr ServerMessage :=
  match unmarshalGoString data with
  | some u =>
    if u = "Heartbeat" then .ok { kind := ServerHeartbeat }
    else .error (.unexpectedUnit u)
  | none =>
    match unmarshalGoMap data with
    | none => .error .invalidMessage
    | some m =>
      match m with
      | [(k, v)] => decodeSingleField uuidParse k v
      | other => .error (.expectedSingleField other.length)

/-- A concrete stand-in for uuid.Parse used to instantiate closed
statements; it rejects every string. -/
def uuidParseNone : String → Option (List Nat) := fun _ => none

/-- Reduce a natural number to a thirty-two bit word. -/
def w32 (n : Nat) : Nat := n % 4294967296

/-- Right rotation of a thirty-two bit word by k positions. -/
def rotr32 (k x : Nat) : Nat := w32 ((x >>> k) ||| (x <<< (32 - k)))

/-- SHA-256 round constants. -/
def sha256K : List Nat :=
  [1116352408, 1899447441, 3049323471, 3921009573, 961987163,
   1508970993, 2453635748, 2870763221, 3624381080, 310598401,
   607225278, 1426881987, 1925078388, 2162078206, 2614888103,
   3248222580, 3835390401, 4022224774, 264347078, 604807628,
   770255983, 1249150122, 1555081692, 1996064986, 2554220882,
   2821834349, 2952996808, 3210313671, 3336571891, 3584528711,
   113926993, 338241895, 666307205, 773529912, 1294757372,
   1396182291, 1695183700, 1986661051, 2177026350, 2456956037,
   2730485921, 2820302411, 3259730800, 3345764771, 3516065817,
   3600352804, 4094571909, 275423344, 430227734, 506948616,
   659060556, 883997877, 958139571, 1322822218, 1537002063,
   1747873779, 1955562222, 2024104815, 2227730452, 2361852424,
   2428436474, 2756734187, 3204031479, 3329325298]

/-- SHA-256 initial hash value. -/
def sha256H0 : List Nat :=
  [1779033703, 3144134277, 1013904242, 2773480762, 1359893119,
   2600822924, 528734635, 1541459225]

def bigSigma0 (x : Nat) : Nat := rotr32 2 x ^^^ rotr32 13 x ^^^ rotr32 22 x

def bigSigma1 (x : Nat) : Nat := rotr32 6 x ^^^ rotr32 11 x ^^^ rotr32 25 x

def smallSigma0 (x : Nat) : Nat := rotr32 7 x ^^^ rotr32 18 x ^^^ (x >>> 3)

def smallSigma1 (x : Nat) : Nat :=
  rotr32 17 x ^^^ rotr32 19 x ^^^ (x >>> 10)

def sha256Ch (x y z : Nat) : Nat :=
  (x &&& y) ^^^ ((x ^^^ 4294967295) &&& z)

def sha256Maj (x y z : Nat) : Nat := (x &&& y) ^^^ (x &&& z) ^^^ (y &&& z)

/-- A natural number rendered as eight big-endian bytes. -/
def be64 (n : Nat) : List Nat :=
  [(n >>> 56) % 256, (n >>> 48) % 256, (n >>> 40) % 256, (n >>> 32) % 256,
   (n >>> 24) % 256, (n >>> 16) % 256, (n >>> 8) % 256, n % 256]

/-- A thirty-two bit word rendered as four big-endian bytes. -/
def wordBytes (w : Nat) : List Nat :=
  [(w >>> 24) % 256, (w >>> 16) % 256, (w >>> 8) % 256, w % 256]

/-- SHA-256 message padding: the message, a one bit (byte 0x80), zero
bytes, and the bit length as eight big-endian bytes, to a multiple of
sixty-four bytes. -/
def sha256Pad (msg : List Nat) : List Nat :=
  let len := msg.length
  let zeros := (64 - ((len + 9) % 64)) % 64
  msg ++ [128] ++ List.replicate zeros 0 ++ be64 (8 * len)

/-- Group consecutive big-endian byte quadruples into words. -/
def bytesToWords : List Nat → List Nat
  | a :: b :: c :: d :: rest =>
    (a * 16777216 + b * 65536 + c * 256 + d) :: bytesToWords rest
  | _ => []

/-- Split a byte list into sixty-four byte chunks. The fuel argument is
structural and bounds the number of chunks; each step consumes at least
one byte, so the list's own length is always enough fuel. -/
def chunks64Aux : Nat → List Nat → List (List Nat)
  | 0, _ => []
  | _, [] => []
  | fuel + 1, x :: rest =>
    (x :: rest).take 64 :: chunks64Aux fuel ((x :: rest).drop 64)

/-- Split a byte list into sixty-four byte chunks. -/
def chunks64 (l : List Nat) : List (List Nat) :=
  chunks64Aux l.length l

/-- Extend the sixteen block words to the sixty-four word schedule. -/
def sha256Schedule (ws : List Nat) : List Nat :=
  (List.range 48).foldl
    (fun acc _ =>
      let n := acc.length
      acc ++ [w32 (smallSigma1 (acc.getD (n - 2) 0) + acc.getD (n - 7) 0 +
        smallSigma0 (acc.getD (n - 15) 0) + acc.getD (n - 16) 0)])
    ws

/-- The eight-word working state of the SHA-256 compression function. -/
structure Sha256State where
  a : Nat
  b : Nat
  c : Nat
  d : Nat
  e : Nat
  f : Nat
  g : Nat
  h : Nat
  deriving DecidableEq, Repr

/-- One round of the SHA-256 compression function. -/
def sha256Round (st : Sha256State) (kt wt : Nat) : Sha256State :=
  let t1 := w32 (st.h + bigSigma1 st.e + sha256Ch st.e st.f st.g + kt + wt)
  let t2 := w32 (bigSigma0 st.a + sha256Maj st.a st.b st.c)
  ⟨w32 (t1 + t2), st.a, st.b, st.c, w32 (st.d + t1), st.e, st.f, st.g⟩

/-- Compress one sixty-four byte block into the running hash value. -/
def sha256Compress (H : List Nat) (block : List Nat) : List Nat :=
  let ws := sha256Schedule (bytesToWords block)
  let st0 : Sha256State :=
    ⟨H.getD 0 0, H.getD 1 0, H.getD 2 0, H.getD 3 0,
     H.getD 4 0, H.getD 5 0, H.getD 6 0, H.getD 7 0⟩
  let stf := (List.range 64).foldl
    (fun st t => sha256Round st (sha256K.getD t 0) (ws.getD t 0)) st0
  [w32 (H.getD 0 0 + stf.a), w32 (H.getD 1 0 + stf.b),
   w32 (H.getD 2 0 + stf.c), w32 (H.getD 3 0 + stf.d),
   w32 (H.getD 4 0 + stf.e), w32 (H.getD 5 0 + stf.f),
   w32 (H.getD 6 0 + stf.g), w32 (H.getD 7 0 + stf.h)]

/-- SHA-256 of a byte string, as a thirty-two byte digest. -/
def sha256 (msg : List Nat) : List Nat :=
  (((chunks64 (sha256Pad msg)).foldl sha256Compress sha256H0).map
    wordBytes).flatten

/-- HMAC-SHA256 as built by Go crypto/hmac over crypto/sha256: the key is
hashed if longer than the sixty-four byte block, zero-padded to the
block size, and combined with the inner and outer pad bytes. -/
def hmacSha256 (key msg : List Nat) : List Nat :=
  let k0 := if 64 < key.length then sha256 key else key
  let kp := k0 ++ List.replicate (64 - k0.length) 0
  sha256 ((kp.map (fun b => b ^^^ 92)) ++
    sha256 ((kp.map (fun b => b ^^^ 54)) ++ msg))

/-- Lower-case hexadecimal digit for a value below sixteen. -/
def hexDigitChar (n : Nat) : Char :=
  if n < 10 then Char.ofNat (48 + n) else Char.ofNat (87 + n)

/-- Lower-case hexadecimal rendering of a byte string, as produced by Go
encoding/hex EncodeToString. -/
def hexEncode (bs : List Nat) : String :=
  String.mk ((bs.map (fun b => [hexDigitChar (b / 16),
    hexDigitChar (b % 16)])).flatten)

/-- Authenticator replies to server challenges using a shared secret
(auth part of the client source). -/
structure Authenticator where
  key : List Nat
  deriving DecidableEq, Repr

/-- Embedding of NewAuthenticator: the key is the SHA-256 hash of the
secret's bytes. -/
def NewAuthenticator (secret : List Nat) : Authenticator :=
  ⟨sha256 secret⟩

/-- Embedding of Authenticator.Answer: the HMAC-SHA256 tag over the raw
sixteen bytes of the challenge UUID, hex-encoded. -/
def Authenticator.Answer (a : Authenticator) (challenge : List Nat) :
    String :=
  hexEncode (hmacSha256 a.key challenge)

/-- Statement of the spec's authentication-tag formula, written from the
spec's words for comparison with the code path: HMAC-SHA256 over the raw
challenge bytes, keyed by SHA-256 of the secret, hex-encoded lower-case. -/
def specAuthTag (secret challenge : List Nat) : String :=
  hexEncode (hmacSha256 (sha256 secret) challenge)

/-- UTF-8 bytes of a string, mirroring the Go conversion of a string to a
byte slice. -/
def strBytes (s : String) : List Nat :=
  s.toUTF8.toList.map (fun b => b.toNat)

/-- Embedding of the Client struct (client source): the immutable session
configuration together with the mutable runtime status fields. The
control socket itself is represented by the separately returned
socket-closed flag of NewClient. -/
structure Client where
  toAddr : String
  localHost : String
  localPort : Nat
  remotePort : Nat
  auth : Option Authenticator
  connected : Bool
  activeProxies : Int
  lastHeartbeatNs : Nat
  deriving DecidableEq, Repr

/-- Outcome of one RecvServer call as seen by its caller: a decoded
message, a clean end-of-stream (the ok flag false), or a receive or
decode error. -/
inductive RecvServerOutcome where
  | msg (m : ServerMessage)
  | eof
  | recvErr
  deriving DecidableEq, Repr

/-- Errors of NewClient (client source), one per early return. -/
inductive NewClientErr where
  | dialErr
  | handshakeErr
  | sendHelloErr
  | recvFailed
  | unexpectedEOF
  | serverRejected (text : String)
  | authRequired
  | unexpectedInitial (kind : String)
  deriving DecidableEq, Repr

/-- Embedding of NewClient (client source). The dial, the optional
authentication handshake and the Hello send are represented by outcome
flags, and the initial server response by a RecvServerOutcome. The
second component of the result records whether the control socket was
closed: every early return after a successful dial runs conn.Close
before returning, and on success the socket stays open inside the
constructed client. -/
def NewClient (localHost : String) (localPort : Nat) (toAddr : String)
    (desiredPort : Nat) (secret : String)
    (dialOk handshakeOk sendHelloOk : Bool) (resp : RecvServerOutcome) :
    Except NewClientErr Client × Bool :=
  if dialOk = false then (.error .dialErr, false)
  else
    let auth := if secret ≠ "" then some (NewAuthenticator (strBytes secret))
      else none
    if secret ≠ "" ∧ handshakeOk = false then (.error .handshakeErr, true)
    else if sendHelloOk = false then (.error .sendHelloErr, true)
    else
      match resp with
      | .recvErr => (.error .recvFailed, true)
      | .eof => (.error .unexpectedEOF, true)
      | .msg m =>
        if m.kind = ServerHello then
          (.ok { toAddr := toAddr, localHost := localHost, localPort := localPort,
                 remotePort := m.port, auth := auth, connected := true,
                 activeProxies := 0, lastHeartbeatNs := 0 }, false)
        else if m.kind = ServerError then
          (.error (.serverRejected m.errorText), true)
        else if m.kind = ServerChallenge then (.error .authRequired, true)
        else (.error (.unexpectedInitial m.kind), true)

/-- Result of one iteration of the Listen receive loop (client source):
exit with success, exit with a receive error, exit with a server error,
or continue with the possibly updated last-heartbeat timestamp and the
connection id dispatched to a concurrent proxy session, if any. -/
inductive ListenOutcome where
  | exitOk
  | exitRecvErr
  | exitErr (text : String)
  | next (lastHeartbeatNs : Nat) (dispatch : Option (List Nat))
  deriving DecidableEq, Repr

/-- Embedding of one iteration of the Listen loop body (client source).
The loop receives with no deadline; lastHeartbeatNs is the stored
timestamp and nowNs the current clock reading used for a Heartbeat. -/
def listenStep (lastHeartbeatNs nowNs : Nat) (r : RecvServerOutcome) :
    ListenOutcome :=
  match r with
  | .recvErr => .exitRecvErr
  | .eof => .exitOk
  | .msg m =>
    if m.kind = ServerHeartbeat then .next nowNs none
    else if m.kind = ServerConnection then
      .next lastHeartbeatNs (some m.id)
    else if m.kind = ServerHello ∨ m.kind = ServerChallenge then
      .next lastHeartbeatNs none
    else if m.kind = ServerError then .exitErr m.errorText
    else .next lastHeartbeatNs none

/-- Errors of handleConnection (client source), one per early return up
to the start of the raw relay. -/
inductive ProxyErr where
  | dialRemoteErr
  | handshakeErr
  | acceptErr
  | drainErr
  | dialLocalErr
  | writeBufferedErr
  deriving DecidableEq, Repr

/-- Embedding of handleConnection (client source). Socket operations are
represented by outcome flags in the order the code performs them: dial
the relay, optional handshake, send Accept, drain the bytes already
buffered past the Accept exchange, dial the local service, write the
buffered bytes, then relay. The second component of the result is the
byte sequence written to the local service connection: the preserved
buffered bytes followed by the bytes later relayed from the tunnel. -/
def handleConnection (hasAuth dialRemoteOk handshakeOk acceptOk drainOk
    dialLocalOk writeBufOk : Bool) (buffered relayed : List Nat) :
    Except ProxyErr Unit × List Nat :=
  if dialRemoteOk = false then (.error .dialRemoteErr, [])
  else if hasAuth ∧ handshakeOk = false then (.error .handshakeErr, [])
  else if acceptOk = false then (.error .acceptErr, [])
  else if drainOk = false then (.error .drainErr, [])
  else if dialLocalOk = false then (.error .dialLocalErr, [])
  else if 0 < buffered.length ∧ writeBufOk = false then
    (.error .writeBufferedErr, [])
  else (.ok (), (if 0 < buffered.length then buffered else []) ++ relayed)

/-- The runtime state relevant to Client.Close (client source): whether
the sync.Once body has run, the connected flag, and how many times the
underlying socket's Close has been invoked. -/
structure ClientRuntime where
  closed : Bool
  connected : Bool
  sockCloseCount : Nat
  deriving DecidableEq, Repr

/-- Embedding of Client.Close (client source): the sync.Once body runs
only on the first call, storing false into connected and closing the
underlying socket; that call alone returns the socket's close error,
every later call returns nil. -/
def Close (s : ClientRuntime) (connCloseErr : Option String) :
    ClientRuntime × Option String :=
  if s.closed then (s, none)
  else ({ closed := true, connected := false,
          sockCloseCount := s.sockCloseCount + 1 }, connCloseErr)

/-- The state transition of one Close call. -/
def closeStep (s : ClientRuntime) : ClientRuntime := (Close s none).1

/-- The state after n successive Close calls. -/
def closeN : Nat → ClientRuntime → ClientRuntime
  | 0, s => s
  | n + 1, s => closeN n (closeStep s)

end BoreGo

namespace BoreGo

lemma trimSuffixZero_append_zero (p : List Nat) :
    trimSuffixZero (p ++ [0]) = p := by
  simp [trimSuffixZero, List.reverse_append]

lemma goObjectMap_single (k : String) (v : Json) :
    goObjectMap [(k, v)] = [(k, v)] := by
  simp [goObjectMap, upsertField]

/-- C2: a payload longer than 256 bytes is rejected by the send path with a
frame-too-large error before any byte reaches the socket, and a received
frame whose payload (excluding the zero terminator) is longer than 256
bytes is rejected by the receive path with a frame-too-large error. -/
theorem sendRecv_reject_oversized_frames (payload : List Nat)
    (h : MaxFrameLength < payload.length) :
    (∀ deadlineOk writeOk flushOk : Bool,
      SendJSON true payload deadlineOk writeOk flushOk =
        (.error (.frameTooLarge payload.length), [])) ∧
    (∀ applyTimeout : Bool,
      RecvFrame applyTimeout true (.ok (payload ++ [0])) =
        .error (.frameTooLarge payload.length)) := by
  constructor
  · intro dOk wOk fOk
    simp [SendJSON, h]
  · intro t
    have hlen : (payload ++ [0]).length = payload.length + 1 := by simp
    simp [RecvFrame, hlen, trimSuffixZero_append_zero, h]

theorem sendRecv_reject_oversized_frames_witness :
    MaxFrameLength < (List.replicate 257 97).length ∧
    SendJSON true (List.replicate 257 97) true true true =
      (.error (.frameTooLarge (List.replicate 257 97).length), []) ∧
    RecvFrame true true (.ok (List.replicate 257 97 ++ [0])) =
      .error (.frameTooLarge (List.replicate 257 97).length) := by
  have hl : MaxFrameLength < (List.replicate 257 97).length := by
    rw [List.length_replicate]; decide
  exact ⟨hl, (sendRecv_reject_oversized_frames (List.replicate 257 97) hl).1
      true true true,
    (sendRecv_reject_oversized_frames (List.replicate 257 97) hl).2 true⟩

/-- C3: a receive on a stream that ends cleanly before any byte arrives
returns present-equals-false (encoded as none) with no error, and a
receive whose read deadline expires returns a timed-out error and never a
false present-equals-false result. -/
theorem recvFrame_eof_and_timeout (applyTimeout : Bool) :
    RecvFrame applyTimeout true (.eofBytes []) = .ok none ∧
    RecvFrame applyTimeout true .timeout = .error .timedOut ∧
    RecvFrame applyTimeout true .timeout ≠ .ok none := by
  refine ⟨rfl, rfl, by simp [RecvFrame]⟩

/-- C10: when the stream ends before a zero terminator arrives, the bytes
of the truncated final frame are discarded and the receive returns
present-equals-false with no error, exactly as for a clean end-of-stream
with zero bytes read. -/
theorem recvFrame_truncated_frame_discarded (applyTimeout : Bool)
    (pending : List Nat) :
    RecvFrame applyTimeout true (.eofBytes pending) = .ok none ∧
    RecvFrame applyTimeout true (.eofBytes pending) =
      RecvFrame applyTimeout true (.eofBytes []) := by
  exact ⟨rfl, rfl⟩

/-- C4: the code does not reject a zero-length frame. A zero-length frame
arrives from ReadBytes as the single terminator byte (ReadBytes includes
the delimiter on success), so the raw slice has length one, the
empty-frame check never fires, and the call succeeds with an empty
payload instead of failing with an empty-frame error as the spec states. -/
theorem recvFrame_lone_terminator_accepted :
    RecvFrame true true (.ok [0]) = .ok (some []) ∧
    RecvFrame true true (.ok [0]) ≠ .error .emptyFrame := by
  exact ⟨rfl, by simp [RecvFrame, trimSuffixZero]⟩

/-- C5 counterexample: on the JSON document null, the first unmarshal
(into a string) is a no-op success leaving the empty string, so the
decoder fails with an unexpected-unit-message error, not with the
malformed-message error the claim requires for non-string inputs. -/
theorem decode_null_not_malformed :
    decodeServerMessage uuidParseNone Json.null =
      .error (.unexpectedUnit "") ∧
    decodeServerMessage uuidParseNone Json.null ≠
      .error .invalidMessage ∧
    decodeServerMessage uuidParseNone Json.null ≠
      .error (.expectedSingleField 0) := by
  have h : decodeServerMessage uuidParseNone Json.null =
      .error (.unexpectedUnit "") := rfl
  refine ⟨h, ?_, ?_⟩ <;> rw [h] <;> simp

/-- C5 amended: the decoder first tries to read the input as a bare JSON
string; the bare string Heartbeat yields the Heartbeat variant, any other
bare string fails with an unexpected-unit-message error, and JSON null
also takes this path (string unmarshalling of null is a no-op success),
failing with an unexpected-unit-message error carrying the empty string.
Every other input must be a JSON object whose map has exactly one key,
and that key must be Hello, Challenge, Connection or Error: an object
with zero or several distinct keys fails with a single-field error, a
single-key object with any other key fails with an unknown-kind error,
and a non-object (number, array, boolean, or invalid JSON) fails with an
invalid-message error. -/
theorem decodeServerMessage_cases
    (uuidParse : String → Option (List Nat)) :
    decodeServerMessage uuidParse (.str "Heartbeat") =
      .ok { kind := ServerHeartbeat } ∧
    (∀ s, s ≠ "Heartbeat" →
      decodeServerMessage uuidParse (.str s) =
        .error (.unexpectedUnit s)) ∧
    decodeServerMessage uuidParse .null = .error (.unexpectedUnit "") ∧
    (∀ fields, (goObjectMap fields).length ≠ 1 →
      decodeServerMessage uuidParse (.obj fields) =
        .error (.expectedSingleField (goObjectMap fields).length)) ∧
    (∀ k v, k ≠ "Hello" → k ≠ "Challenge" → k ≠ "Connection" →
      k ≠ "Error" →
      decodeServerMessage uuidParse (.obj [(k, v)]) =
        .error (.unknownKind k)) ∧
    (∀ i b, decodeServerMessage uuidParse (.num i b) =
      .error .invalidMessage) ∧
    (∀ es, decodeServerMessage uuidParse (.arr es) =
      .error .invalidMessage) ∧
    (∀ b, decodeServerMessage uuidParse (.jbool b) =
      .error .invalidMessage) ∧
    decodeServerMessage uuidParse .invalid = .error .invalidMessage := by
  refine ⟨rfl, ?_, rfl, ?_, ?_, ?_, ?_, ?_, rfl⟩
  · intro s hs
    simp [decodeServerMessage, unmarshalGoString, hs]
  · intro fields hf
    cases hm : goObjectMap fields with
    | nil =>
      simp [decodeServerMessage, unmarshalGoString, unmarshalGoMap, hm]
    | cons hd tl =>
      cases tl with
      | nil =>
        rw [hm] at hf
        exact absurd rfl hf
      | cons hd2 tl2 =>
        simp [decodeServerMessage, unmarshalGoString, unmarshalGoMap, hm]
  · intro k v h1 h2 h3 h4
    simp [decodeServerMessage, unmarshalGoString, unmarshalGoMap,
      goObjectMap_single, decodeSingleField, h1, h2, h3, h4]
  · intro i b
    rfl
  · intro es
    rfl
  · intro b
    rfl

theorem decodeServerMessage_cases_witness :
    ("Hi" ≠ "Heartbeat") ∧
    decodeServerMessage uuidParseNone (.str "Hi") =
      .error (.unexpectedUnit "Hi") ∧
    ((goObjectMap ([] : List (String × Json))).length ≠ 1) ∧
    decodeServerMessage uuidParseNone (.obj []) =
      .error (.expectedSingleField
        (goObjectMap ([] : List (String × Json))).length) ∧
    ("Bogus" ≠ "Hello") ∧
    decodeServerMessage uuidParseNone (.obj [("Bogus", .null)]) =
      .error (.unknownKind "Bogus") := by
  refine ⟨by decide, ?_, by decide, ?_, by decide, ?_⟩
  · exact (decodeServerMessage_cases uuidParseNone).2.1 "Hi" (by decide)
  · exact (decodeServerMessage_cases uuidParseNone).2.2.2.1 [] (by decide)
  · exact (decodeServerMessage_cases uuidParseNone).2.2.2.2.1 "Bogus" .null
      (by decide) (by decide) (by decide) (by decide)

set_option maxRecDepth 8192 in
/-- Sanity check of the hash embedding against the standard test vector:
the SHA-256 digest of the empty message. -/
theorem sha256_empty_vector :
    sha256 [] =
      [227, 176, 196, 66, 152, 252, 28, 20, 154, 251, 244, 200, 153, 111,
       185, 36, 39, 174, 65, 228, 100, 155, 147, 76, 164, 149, 153, 27,
       120, 82, 184, 85] := by
  decide

set_option maxRecDepth 8192 in
/-- Sanity check of the hash embedding against the standard test vector:
the SHA-256 digest of the three bytes of abc. -/
theorem sha256_abc_vector :
    sha256 [97, 98, 99] =
      [186, 120, 22, 191, 143, 1, 207, 234, 65, 65, 64, 222, 93, 174, 34,
       35, 176, 3, 97, 163, 150, 23, 122, 156, 180, 16, 255, 97, 242, 0,
       21, 173] := by
  decide

/-- C6: for every secret and sixteen-byte challenge, the Answer method of
an authenticator built by NewAuthenticator returns exactly the
lower-case hex encoding of HMAC-SHA256 over the raw challenge bytes
keyed by SHA-256 of the secret, and the tag is deterministic across
repeated calls and across distinct authenticator instances built from
the same secret. -/
theorem answer_matches_spec_and_deterministic
    (secret challenge : List Nat) (hlen : challenge.length = 16) :
    (NewAuthenticator secret).Answer challenge =
      specAuthTag secret challenge ∧
    (∀ a1 a2 : Authenticator, a1 = NewAuthenticator secret →
      a2 = NewAuthenticator secret →
      a1.Answer challenge = a2.Answer challenge) := by
  refine ⟨rfl, ?_⟩
  rintro a1 a2 rfl rfl
  rfl

theorem answer_matches_spec_witness :
    (List.range 16).length = 16 ∧
    (NewAuthenticator [15, 7]).Answer (List.range 16) =
      specAuthTag [15, 7] (List.range 16) :=
  ⟨by decide,
   (answer_matches_spec_and_deterministic [15, 7] (List.range 16)
     (by decide)).1⟩

/-- C1: with the dial, the optional handshake and the Hello send
successful, the constructor's outcome is decided by the initial server
response: a Hello carrying a port yields a constructed client whose
remote port is that port and whose connected flag is true, with the
socket left open; an Error response fails with a server-rejected error
carrying the text; a Challenge response when no secret was configured
fails with an authentication-required error; any other message kind
fails with an unexpected-initial-message error; and in general, for
every post-dial outcome, construction fails exactly when the socket has
been closed, so no partially constructed client is ever returned. -/
theorem newClient_initial_response (localHost : String) (localPort : Nat)
    (toAddr : String) (desiredPort : Nat) :
    (∀ (secret : String) (m : ServerMessage), m.kind = ServerHello →
      (∃ c, (NewClient localHost localPort toAddr desiredPort secret
          true true true (.msg m)).1 = .ok c ∧
        c.remotePort = m.port ∧ c.connected = true) ∧
      (NewClient localHost localPort toAddr desiredPort secret
        true true true (.msg m)).2 = false) ∧
    (∀ (secret : String) (m : ServerMessage), m.kind = ServerError →
      NewClient localHost localPort toAddr desiredPort secret
        true true true (.msg m) =
          (.error (.serverRejected m.errorText), true)) ∧
    (∀ m : ServerMessage, m.kind = ServerChallenge →
      NewClient localHost localPort toAddr desiredPort ""
        true true true (.msg m) = (.error .authRequired, true)) ∧
    (∀ (secret : String) (m : ServerMessage), m.kind ≠ ServerHello →
      m.kind ≠ ServerError → m.kind ≠ ServerChallenge →
      NewClient localHost localPort toAddr desiredPort secret
        true true true (.msg m) =
          (.error (.unexpectedInitial m.kind), true)) ∧
    (∀ (secret : String) (handshakeOk sendHelloOk : Bool)
        (resp : RecvServerOutcome),
      ((∃ e, (NewClient localHost localPort toAddr desiredPort secret
          true handshakeOk sendHelloOk resp).1 = .error e) ↔
        (NewClient localHost localPort toAddr desiredPort secret
          true handshakeOk sendHelloOk resp).2 = true)) := by
  refine ⟨?_, ?_, ?_, ?_, ?_⟩
  · intro secret m hk
    refine ⟨⟨{ toAddr := toAddr, localHost := localHost,
               localPort := localPort, remotePort := m.port,
               auth := (if secret ≠ "" then
                 some (NewAuthenticator (strBytes secret)) else none),
               connected := true, activeProxies := 0,
               lastHeartbeatNs := 0 },
      ?_, rfl, rfl⟩, ?_⟩ <;> simp [NewClient, hk]
  · intro secret m hk
    simp [NewClient, hk, ServerError, ServerHello]
  · intro m hk
    simp [NewClient, hk, ServerChallenge, ServerHello, ServerError]
  · intro secret m h1 h2 h3
    simp [NewClient, h1, h2, h3]
  · intro secret hOk sOk resp
    by_cases hs : secret = "" <;> cases hOk <;> cases sOk <;>
      rcases resp with m | _ | _ <;>
      simp [NewClient, hs] <;>
      (try (split_ifs <;> simp_all))

theorem newClient_initial_response_witness :
    ((ServerMessage.mk "hello" 9000 [] "").kind = ServerHello ∧
      ∃ c, (NewClient "localhost" 8000 "srv" 0 "" true true true
          (.msg (ServerMessage.mk "hello" 9000 [] ""))).1 = .ok c ∧
        c.remotePort = 9000 ∧ c.connected = true) ∧
    ((ServerMessage.mk "challenge" 0 [] "").kind = ServerChallenge ∧
      NewClient "localhost" 8000 "srv" 0 "" true true true
        (.msg (ServerMessage.mk "challenge" 0 [] "")) =
          (.error .authRequired, true)) ∧
    ((ServerMessage.mk "error" 0 [] "busy").kind = ServerError ∧
      NewClient "localhost" 8000 "srv" 0 "" true true true
        (.msg (ServerMessage.mk "error" 0 [] "busy")) =
          (.error (.serverRejected "busy"), true)) := by
  refine ⟨⟨rfl, ?_⟩, ⟨rfl, ?_⟩, ⟨rfl, ?_⟩⟩
  · exact ((newClient_initial_response "localhost" 8000 "srv" 0).1 ""
      (ServerMessage.mk "hello" 9000 [] "") rfl).1
  · exact (newClient_initial_response "localhost" 8000 "srv" 0).2.2.1
      (ServerMessage.mk "challenge" 0 [] "") rfl
  · exact (newClient_initial_response "localhost" 8000 "srv" 0).2.1 ""
      (ServerMessage.mk "error" 0 [] "busy") rfl

/-- C7: one iteration of the Listen receive loop behaves as specified: a
clean end-of-stream exits the loop with no error; a Heartbeat stores the
current time as the last-heartbeat timestamp and continues without
dispatching; a Connection message dispatches a concurrent proxy session
for its id and continues with the timestamp unchanged; a stray Hello or
Challenge is non-fatal and the loop continues unchanged; an Error
message exits the loop with an error carrying its text. -/
theorem listenStep_cases (lastHb now : Nat) :
    listenStep lastHb now .eof = .exitOk ∧
    (∀ m : ServerMessage, m.kind = ServerHeartbeat →
      listenStep lastHb now (.msg m) = .next now none) ∧
    (∀ m : ServerMessage, m.kind = ServerConnection →
      listenStep lastHb now (.msg m) = .next lastHb (some m.id)) ∧
    (∀ m : ServerMessage, m.kind = ServerHello ∨ m.kind = ServerChallenge →
      listenStep lastHb now (.msg m) = .next lastHb none) ∧
    (∀ m : ServerMessage, m.kind = ServerError →
      listenStep lastHb now (.msg m) = .exitErr m.errorText) := by
  refine ⟨rfl, ?_, ?_, ?_, ?_⟩
  · intro m hk
    simp [listenStep, hk, ServerHeartbeat]
  · intro m hk
    simp [listenStep, hk, ServerConnection, ServerHeartbeat]
  · intro m hk
    rcases hk with hk | hk <;>
      simp [listenStep, hk, ServerHello, ServerChallenge, ServerHeartbeat,
        ServerConnection]
  · intro m hk
    simp [listenStep, hk, ServerError, ServerHeartbeat, ServerConnection,
      ServerHello, ServerChallenge]

theorem listenStep_cases_witness :
    ((ServerMessage.mk "heartbeat" 0 [] "").kind = ServerHeartbeat ∧
      listenStep 5 77 (.msg (ServerMessage.mk "heartbeat" 0 [] "")) =
        .next 77 none) ∧
    ((ServerMessage.mk "connection" 0 [3, 4] "").kind = ServerConnection ∧
      listenStep 5 77 (.msg (ServerMessage.mk "connection" 0 [3, 4] "")) =
        .next 5 (some [3, 4])) ∧
    ((ServerMessage.mk "error" 0 [] "down").kind = ServerError ∧
      listenStep 5 77 (.msg (ServerMessage.mk "error" 0 [] "down")) =
        .exitErr "down") := by
  refine ⟨⟨rfl, ?_⟩, ⟨rfl, ?_⟩, ⟨rfl, ?_⟩⟩
  · exact (listenStep_cases 5 77).2.1 (ServerMessage.mk "heartbeat" 0 [] "")
      rfl
  · exact (listenStep_cases 5 77).2.2.1
      (ServerMessage.mk "connection" 0 [3, 4] "") rfl
  · exact (listenStep_cases 5 77).2.2.2.2
      (ServerMessage.mk "error" 0 [] "down") rfl

/-- C8: when the steps up to the relay succeed, the byte sequence written
to the local service connection is exactly the preserved buffered bytes
followed by the subsequently relayed bytes: the buffered prefix comes
strictly first and byte order is preserved. -/
theorem handleConnection_buffered_first (hasAuth : Bool)
    (buffered relayed : List Nat) :
    handleConnection hasAuth true true true true true true
      buffered relayed = (.ok (), buffered ++ relayed) ∧
    (handleConnection hasAuth true true true true true true
      buffered relayed).2.take buffered.length = buffered ∧
    (handleConnection hasAuth true true true true true true
      buffered relayed).2.drop buffered.length = relayed := by
  have hw : (if 0 < buffered.length then buffered else []) ++ relayed =
      buffered ++ relayed := by
    by_cases hb : 0 < buffered.length
    · simp [hb]
    · have : buffered = [] := by
        cases buffered with
        | nil => rfl
        | cons x xs => simp at hb
      simp [this]
  have h1 : handleConnection hasAuth true true true true true true
      buffered relayed = (.ok (), buffered ++ relayed) := by
    simp [handleConnection, hw]
  refine ⟨h1, ?_, ?_⟩ <;> rw [h1]
  · exact List.take_left buffered relayed
  · exact List.drop_left buffered relayed

/-- C9: Client.Close is idempotent. Starting from a not yet closed
client, any positive number of Close calls closes the underlying socket
exactly once, leaves the connected flag false, and every call after the
first returns no error; one further Close call is a no-op on the state. -/
theorem close_idempotent (s : ClientRuntime) (n : Nat)
    (h0 : s.closed = false) (hn : 1 ≤ n) :
    (closeN n s).sockCloseCount = s.sockCloseCount + 1 ∧
    (closeN n s).connected = false ∧
    (closeN n s).closed = true ∧
    (∀ e, Close (closeN n s) e = (closeN n s, none)) ∧
    (∀ e, (Close s e).1 = closeStep s) ∧
    closeStep (closeStep s) = closeStep s := by
  have hstep : closeStep s = ⟨true, false, s.sockCloseCount + 1⟩ := by
    simp [closeStep, Close, h0]
  have hfix : ∀ (k : Nat) (t : ClientRuntime), t.closed = true →
      closeN k t = t := by
    intro k
    induction k with
    | zero => intro t ht; rfl
    | succ j ih =>
      intro t ht
      have : closeStep t = t := by simp [closeStep, Close, ht]
      rw [closeN, this, ih t ht]
  cases n with
  | zero => omega
  | succ m =>
    have hrun : closeN (m + 1) s = ⟨true, false, s.sockCloseCount + 1⟩ := by
      rw [closeN, hstep, hfix m _ rfl]
    refine ⟨by rw [hrun], by rw [hrun], by rw [hrun], ?_, ?_, ?_⟩
    · intro e
      rw [hrun]
      simp [Close]
    · intro e
      simp [Close, closeStep, h0]
    · rw [hstep]
      simp [closeStep, Close]

theorem close_idempotent_witness :
    (ClientRuntime.mk false true 0).closed = false ∧ 1 ≤ 3 ∧
    (closeN 3 (ClientRuntime.mk false true 0)).sockCloseCount = 0 + 1 ∧
    (closeN 3 (ClientRuntime.mk false true 0)).connected = false :=
  ⟨rfl, by decide,
   (close_idempotent (ClientRuntime.mk false true 0) 3 rfl (by decide)).1,
   (close_idempotent (ClientRuntime.mk false true 0) 3 rfl
     (by decide)).2.1⟩

end BoreGo
